import Mathlib

/-!
Verification of the BASQ-V confidence-scoring engine specification against a
shallow embedding of the repository. The backend scoring engine is described
by the repository README and the specification; the frontend response mapper
and query input components are embedded from the JavaScript sources.
Scores are rational numbers; machine floats in the source carry only values
and comparisons that are exact at this scale.
-/

/-- Modelled from the spec: the five scoring dimensions (spec section 3, Issue
and DimensionScore entities). The backend files confidence_scorer.py and its
validators are not in the repository snapshot, so the engine is modelled from
the specification text. -/
inductive Dimension where
  | schemaDim
  | syntaxDim
  | semanticDim
  | contextDim
  | businessDim
  deriving DecidableEq, Repr

/-- Modelled from the spec: issue severities (spec section 3). -/
inductive Severity where
  | critical
  | warning
  | info
  deriving DecidableEq, Repr

/-- Modelled from the spec: the three-way recommendation band (spec section 3). -/
inductive Recommendation where
  | ACCEPT
  | CORRECT
  | REJECT
  deriving DecidableEq, Repr

/-- Modelled from the spec: a validator finding (spec section 3, Issue). -/
structure Issue where
  dimension : Dimension
  severity : Severity
  code : String
  message : String
  location : Option String
  deriving DecidableEq, Repr

/-- Modelled from the spec: one dimension of the score (spec section 3). -/
structure DimensionScore where
  dimension : Dimension
  raw_score : ℚ
  weight : ℚ
  contributing_issues : List Issue
  deriving DecidableEq, Repr

/-- Modelled from the spec: the terminal artifact of one evaluation
(spec section 3, ConfidenceResult). -/
structure ConfidenceResult where
  overall_confidence : ℚ
  dimension_scores : List DimensionScore
  issues : List Issue
  recommendation : Recommendation
  deriving DecidableEq, Repr

/-- Modelled from the spec: the output of one SelfCorrector.correct call
(spec section 3, CorrectionResult). -/
structure CorrectionResult where
  corrected_sql : Option String
  applied_fixes : List String
  attempts : ℕ
  deriving DecidableEq, Repr

/-- Modelled from the spec: a Schema maps table names (case-insensitive) to
column-name lists (spec section 3). -/
abbrev DbSchema := List (String × List String)

/-- Modelled from the spec: BusinessContext is an ordered sequence of
free-text statements (spec section 3). -/
abbrev BusinessContext := List String

/-- Modelled from the spec: the parsed representation a successful parse
exposes (spec sections 3 and 6): referenced tables, columns optionally
qualified by table, function calls, clause structure, plus non-fatal parser
warnings. -/
structure ParsedSql where
  tables : List String
  columns : List (Option String × String)
  functions : List String
  selectColumns : List String
  selectAggregates : List String
  groupByColumns : List String
  whereAggregates : List String
  orderByColumns : List String
  whereTautology : Bool
  selectStar : Bool
  literals : List String
  parseWarnings : List String
  deriving DecidableEq, Repr

/-- Clamp a rational to the unit interval; every dimension raw score is
floored at 0.0 and capped at 1.0 (spec sections 4.1 to 4.5). -/
def clamp01 (q : ℚ) : ℚ := max 0 (min 1 q)

/-- Modelled from the spec: the fixed aggregation weights of section 4.6. -/
def weightOf : Dimension → ℚ
  | .schemaDim => 30 / 100
  | .syntaxDim => 25 / 100
  | .semanticDim => 20 / 100
  | .contextDim => 15 / 100
  | .businessDim => 10 / 100

/-- Modelled from the spec: implementation parameters for deduction
magnitudes, which section 9 leaves as explicit tunable configuration. -/
def syntaxWarningDeduction : ℚ := 1 / 10

/-- Modelled from the spec: fixed per-critical-issue deduction of the schema
dimension (section 4.2). -/
def schemaIssueDeduction : ℚ := 1 / 4

/-- Modelled from the spec: semantic deduction for a critical issue, larger
than the warning deduction (section 4.3). -/
def semanticCriticalDeduction : ℚ := 3 / 10

/-- Modelled from the spec: semantic deduction for a warning issue. -/
def semanticWarningDeduction : ℚ := 1 / 10

/-- Modelled from the spec: deduction per distinct hallucination category
found (section 4.5). -/
def hallucinationCategoryDeduction : ℚ := 1 / 4

/-- Modelled from the spec: deduction for a general-rule warning in the
business dimension (section 4.6). -/
def businessWarningDeduction : ℚ := 1 / 10

/-- Lower-case a string character by character (case-insensitive matching). -/
def lowerStr (s : String) : String := ⟨s.toList.map Char.toLower⟩

/-- Modelled from the spec: SchemaIndex lookup of a table, case-insensitive
on the table name (spec section 2). -/
def lookupTable (schema : DbSchema) (t : String) : Option (List String) :=
  (schema.find? (fun p => lowerStr p.1 = lowerStr t)).map Prod.snd

/-- Case-insensitive membership of a column name in a column list. -/
def columnInList (cols : List String) (c : String) : Bool :=
  cols.any (fun c2 => lowerStr c2 = lowerStr c)

/-- Modelled from the spec: issues of the syntax dimension on a successful
parse, one warning issue per non-fatal parser warning (section 4.1). -/
def syntaxIssues (t : ParsedSql) : List Issue :=
  t.parseWarnings.map (fun w =>
    { dimension := .syntaxDim, severity := .warning, code := "syntax_warning",
      message := w, location := none })

/-- Modelled from the spec: syntax raw score on a successful parse, 1.0 minus
a deduction per non-fatal warning with a floor of 0.0 (section 4.1). -/
def syntaxRawScore (t : ParsedSql) : ℚ :=
  clamp01 (1 - syntaxWarningDeduction * (t.parseWarnings.length : ℚ))

/-- Union of the column lists of all referenced tables found in the schema. -/
def referencedTablesColumns (t : ParsedSql) (schema : DbSchema) : List String :=
  t.tables.foldr (fun tb acc => (lookupTable schema tb).getD [] ++ acc) []

/-- Modelled from the spec: a column reference is unknown when a qualified
column is absent from its (present) table, or an unqualified column is absent
from the union of the referenced tables (section 4.2). -/
def columnUnknown (t : ParsedSql) (schema : DbSchema) (qc : Option String × String) : Bool :=
  match qc.1 with
  | some tb =>
    match lookupTable schema tb with
    | some cols => !(columnInList cols qc.2)
    | none => false
  | none => !(columnInList (referencedTablesColumns t schema) qc.2)

/-- Modelled from the spec: SchemaValidator issues; an empty Schema yields no
issues rather than rejecting every table (section 4.2). -/
def schemaIssuesOf (t : ParsedSql) (schema : DbSchema) : List Issue :=
  if schema.isEmpty then []
  else
    (t.tables.filter (fun tb => (lookupTable schema tb).isNone)).map (fun tb =>
      { dimension := .schemaDim, severity := .critical, code := "unknown_table",
        message := "table not found in schema", location := some tb }) ++
    ((t.columns.filter (columnUnknown t schema)).map (fun qc =>
      { dimension := .schemaDim, severity := .critical, code := "unknown_column",
        message := "column not found in schema", location := some qc.2 }))

/-- Modelled from the spec: schema raw score, 1.0 minus a fixed deduction per
critical issue with a floor of 0.0 (section 4.2). -/
def schemaRawScore (t : ParsedSql) (schema : DbSchema) : ℚ :=
  clamp01 (1 - schemaIssueDeduction * ((schemaIssuesOf t schema).length : ℚ))

/-- Modelled from the spec: GROUP BY consistency rule of section 4.3. -/
def groupByMismatchIssues (t : ParsedSql) : List Issue :=
  if t.groupByColumns.isEmpty then []
  else
    (t.selectColumns.filter (fun c => !(columnInList t.groupByColumns c))).map (fun c =>
      { dimension := .semanticDim, severity := .critical, code := "group_by_mismatch",
        message := "non-aggregated SELECT column missing from GROUP BY", location := some c })

/-- Modelled from the spec: aggregates must not appear in WHERE (section 4.3). -/
def aggregateInWhereIssues (t : ParsedSql) : List Issue :=
  t.whereAggregates.map (fun f =>
    { dimension := .semanticDim, severity := .critical, code := "aggregate_in_where",
      message := "aggregate function used in WHERE clause", location := some f })

/-- Modelled from the spec: ORDER BY on a column the query itself does not
declare (section 4.3), schema-blind. -/
def unknownOrderColumnIssues (t : ParsedSql) : List Issue :=
  (t.orderByColumns.filter (fun c =>
      !(columnInList t.selectColumns c) && !(columnInList (t.columns.map Prod.snd) c))).map (fun c =>
    { dimension := .semanticDim, severity := .warning, code := "unknown_order_column",
      message := "ORDER BY column not declared by the query", location := some c })

/-- Modelled from the spec: tautological WHERE predicates flagged as
suspicious (section 4.3). -/
def suspiciousPredicateIssues (t : ParsedSql) : List Issue :=
  if t.whereTautology then
    [{ dimension := .semanticDim, severity := .warning, code := "suspicious_predicate",
       message := "tautological or empty WHERE predicate", location := none }]
  else []

/-- Modelled from the spec: all SemanticValidator issues (section 4.3). -/
def semanticIssuesOf (t : ParsedSql) : List Issue :=
  groupByMismatchIssues t ++ aggregateInWhereIssues t ++
    unknownOrderColumnIssues t ++ suspiciousPredicateIssues t

/-- Modelled from the spec: deduction by severity, critical larger than
warning (section 4.3). -/
def severityDeduction : Severity → ℚ
  | .critical => semanticCriticalDeduction
  | .warning => semanticWarningDeduction
  | .info => 0

/-- Modelled from the spec: semantic raw score (section 4.3). -/
def semanticRawScore (t : ParsedSql) : ℚ :=
  clamp01 (1 - ((semanticIssuesOf t).map (fun i => severityDeduction i.severity)).sum)

/-- A character that can belong to a column or table-like token. -/
def isTermChar (c : Char) : Bool := c.isAlphanum || c = '_'

/-- Split a character list into maximal runs of term characters. -/
def splitTokens : List Char → List Char → List (List Char)
  | [], acc => if acc.isEmpty then [] else [acc.reverse]
  | c :: cs, acc =>
    if isTermChar c then splitTokens cs (c :: acc)
    else if acc.isEmpty then splitTokens cs [] else acc.reverse :: splitTokens cs []

/-- Modelled from the spec: the significant terms of one context statement,
lower-cased tokens of length at least three (section 4.4; the exact
tokenization rule is a tunable parameter per section 9). -/
def significantTerms (s : String) : List String :=
  ((splitTokens (lowerStr s).toList []).map (fun l => (⟨l⟩ : String))).filter
    (fun w => 3 ≤ w.length)

/-- Boolean contiguous-sublist test on character lists. -/
def isSubListChar (needle : List Char) : List Char → Bool
  | [] => needle.isEmpty
  | c :: cs => needle.isPrefixOf (c :: cs) || isSubListChar needle cs

/-- Modelled from the spec: the terms the query itself references, against
which context statements are matched (section 4.4). -/
def queryTerms (t : ParsedSql) : List String :=
  (t.tables ++ t.columns.map Prod.snd ++ t.literals).map lowerStr

/-- Modelled from the spec: one context statement matches when one of its
significant terms appears verbatim or as a normalized substring among the
referenced tables, columns and literals (section 4.4). -/
def statementMatches (t : ParsedSql) (stmt : String) : Bool :=
  (significantTerms stmt).any (fun term =>
    (queryTerms t).any (fun qt => term = qt || isSubListChar term.toList qt.toList))

/-- Modelled from the spec: unmatched statements produce info issues only
(section 4.4). -/
def contextIssuesOf (t : ParsedSql) (ctx : BusinessContext) : List Issue :=
  (ctx.filter (fun s => !(statementMatches t s))).map (fun s =>
    { dimension := .contextDim, severity := .info, code := "context_unused",
      message := s, location := none })

/-- Modelled from the spec: context raw score, the fraction of context
statements with at least one matching term, defaulting to 1.0 when
BusinessContext is empty (section 4.4). -/
def contextRawScore (t : ParsedSql) (ctx : BusinessContext) : ℚ :=
  if ctx.isEmpty then 1
  else ((ctx.filter (statementMatches t)).length : ℚ) / (ctx.length : ℚ)

/-- Modelled from the spec: whitelist of standard SQL functions
(section 4.5; the full list is a tunable parameter per section 9). -/
def sqlFunctionWhitelist : List String :=
  ["count", "sum", "avg", "min", "max", "upper", "lower", "length", "round",
   "abs", "coalesce", "substr", "concat", "now", "date", "cast", "nullif"]

/-- Modelled from the spec: placeholder-like identifier tokens (section 4.5). -/
def placeholderTokens : List String :=
  ["table1", "table2", "columnx", "foo", "bar", "tmp", "placeholder"]

/-- Modelled from the spec: tables absent from a nonempty schema, retagged
for the hallucination narrative (section 4.5). -/
def hallucinatedTables (t : ParsedSql) (schema : DbSchema) : List String :=
  if schema.isEmpty then []
  else t.tables.filter (fun tb => (lookupTable schema tb).isNone)

/-- Modelled from the spec: columns absent from a nonempty schema, retagged
for the hallucination narrative (section 4.5). -/
def hallucinatedColumns (t : ParsedSql) (schema : DbSchema) : List String :=
  if schema.isEmpty then []
  else (t.columns.filter (columnUnknown t schema)).map Prod.snd

/-- Modelled from the spec: function calls outside the standard whitelist
(section 4.5). -/
def hallucinatedFunctions (t : ParsedSql) : List String :=
  t.functions.filter (fun f => !(sqlFunctionWhitelist.contains (lowerStr f)))

/-- Modelled from the spec: identifiers that look like placeholders
(section 4.5). -/
def suspiciousIdentifiers (t : ParsedSql) : List String :=
  (t.tables ++ t.columns.map Prod.snd).filter (fun n =>
    placeholderTokens.contains (lowerStr n))

/-- Modelled from the spec: the count of distinct hallucination categories
found, not the raw issue count (section 4.5). -/
def hallucinationCategoryCount (t : ParsedSql) (schema : DbSchema) : ℕ :=
  (if (hallucinatedTables t schema).isEmpty then 0 else 1) +
  (if (hallucinatedColumns t schema).isEmpty then 0 else 1) +
  (if (hallucinatedFunctions t).isEmpty then 0 else 1) +
  (if (suspiciousIdentifiers t).isEmpty then 0 else 1)

/-- Modelled from the spec: issues of the business dimension, hosting the
hallucination narrative (section 4.5) and the residual general-rule
compliance checks such as SELECT star (section 4.6). -/
def businessIssuesOf (t : ParsedSql) (schema : DbSchema) : List Issue :=
  (hallucinatedTables t schema).map (fun tb =>
    { dimension := .businessDim, severity := .critical, code := "hallucinated_table",
      message := "table looks hallucinated", location := some tb }) ++
  (hallucinatedColumns t schema).map (fun c =>
    { dimension := .businessDim, severity := .critical, code := "hallucinated_column",
      message := "column looks hallucinated", location := some c }) ++
  (hallucinatedFunctions t).map (fun f =>
    { dimension := .businessDim, severity := .critical, code := "hallucinated_function",
      message := "function not in standard SQL whitelist", location := some f }) ++
  (suspiciousIdentifiers t).map (fun n =>
    { dimension := .businessDim, severity := .warning, code := "suspicious_pattern",
      message := "identifier looks like a placeholder", location := some n }) ++
  (if t.selectStar then
    [{ dimension := .businessDim, severity := .warning, code := "select_star",
       message := "SELECT star is discouraged", location := none }]
   else [])

/-- Modelled from the spec: business raw score, deductions scaled by the
count of distinct hallucination categories plus general-rule warnings
(sections 4.5 and 4.6). -/
def businessRawScore (t : ParsedSql) (schema : DbSchema) : ℚ :=
  clamp01 (1 - hallucinationCategoryDeduction * (hallucinationCategoryCount t schema : ℚ) -
    (if t.selectStar then businessWarningDeduction else 0))

/-- Build one DimensionScore with the fixed weight of its dimension. -/
def mkDim (d : Dimension) (raw : ℚ) (issues : List Issue) : DimensionScore :=
  { dimension := d, raw_score := raw, weight := weightOf d, contributing_issues := issues }

/-- Syntax dimension on a successful parse. -/
def syntaxDimScore (t : ParsedSql) : DimensionScore :=
  mkDim .syntaxDim (syntaxRawScore t) (syntaxIssues t)

/-- Schema dimension on a successful parse. -/
def schemaDimScore (t : ParsedSql) (schema : DbSchema) : DimensionScore :=
  mkDim .schemaDim (schemaRawScore t schema) (schemaIssuesOf t schema)

/-- Semantic dimension on a successful parse. -/
def semanticDimScore (t : ParsedSql) : DimensionScore :=
  mkDim .semanticDim (semanticRawScore t) (semanticIssuesOf t)

/-- Context dimension on a successful parse. -/
def contextDimScore (t : ParsedSql) (ctx : BusinessContext) : DimensionScore :=
  mkDim .contextDim (contextRawScore t ctx) (contextIssuesOf t ctx)

/-- Business dimension on a successful parse. -/
def businessDimScore (t : ParsedSql) (schema : DbSchema) : DimensionScore :=
  mkDim .businessDim (businessRawScore t schema) (businessIssuesOf t schema)

/-- Modelled from the spec: the weighted aggregation over the dimension
scores (section 4.6). -/
def aggregate (ds : List DimensionScore) : ℚ :=
  (ds.map (fun d => d.raw_score * d.weight)).sum

/-- Modelled from the spec: the recommendation thresholds of section 4.6,
inclusive at the lower bound of each band. -/
def recommend (s : ℚ) : Recommendation :=
  if 7 / 10 ≤ s then .ACCEPT
  else if 1 / 2 ≤ s then .CORRECT
  else .REJECT

/-- Assemble a ConfidenceResult from the five dimension scores, with the
issue union in dimension evaluation order (spec section 3). -/
def mkResult (ds : List DimensionScore) : ConfidenceResult :=
  { overall_confidence := aggregate ds,
    dimension_scores := ds,
    issues := ds.foldr (fun d acc => d.contributing_issues ++ acc) [],
    recommendation := recommend (aggregate ds) }

/-- Modelled from the spec: the single critical syntax issue on a parse
failure (section 4.1). -/
def syntaxErrorIssue : Issue :=
  { dimension := .syntaxDim, severity := .critical, code := "syntax_error",
    message := "SQL text failed to parse", location := none }

/-- Modelled from the spec: the single blocking issue of a dimension that
cannot run because no parse tree is available (section 4.1). -/
def blockedIssue (d : Dimension) : Issue :=
  { dimension := d, severity := .critical, code := "blocked_by_syntax_error",
    message := "dimension not evaluated because the SQL failed to parse", location := none }

/-- A dimension short-circuited by a parse failure: score 0.0 with exactly
one blocking issue (spec section 4.1). -/
def blockedDim (d : Dimension) : DimensionScore := mkDim d 0 [blockedIssue d]

/-- Modelled from the spec: the degraded result of a parse failure, keeping
all five dimensions so the weighted formula stays well-defined (section 4.1). -/
def blockedResult : ConfidenceResult :=
  mkResult [mkDim .syntaxDim 0 [syntaxErrorIssue], blockedDim .schemaDim,
    blockedDim .semanticDim, blockedDim .contextDim, blockedDim .businessDim]

/-- Modelled from the spec: the orchestrator of section 4.6, parameterized by
the external SQL-parsing capability of section 6. Runs the syntax check
first; on failure returns the degraded five-dimension result, otherwise runs
the five validators and aggregates. -/
def evaluateEngine (parse : String → Option ParsedSql) (sql : String)
    (schema : DbSchema) (ctx : BusinessContext) : ConfidenceResult :=
  match parse sql with
  | none => blockedResult
  | some t =>
    mkResult [syntaxDimScore t, schemaDimScore t schema, semanticDimScore t,
      contextDimScore t ctx, businessDimScore t schema]

/-- Modelled from the spec: the caller-facing contract of section 7: a
missing Schema argument (as opposed to an empty one) is a caller error; every
supplied input produces a ConfidenceResult. -/
def evaluateChecked (parse : String → Option ParsedSql) (sql : String)
    (schemaOpt : Option DbSchema) (ctx : BusinessContext) : Except String ConfidenceResult :=
  match schemaOpt with
  | none => .error "missing required Schema argument"
  | some s => .ok (evaluateEngine parse sql s ctx)

/-- Modelled from the spec: whatever storage an engine implementation might
keep between calls; the invariant of section 3 says no entity is ever shared
as mutable state across two evaluation calls. -/
structure EngineState where
  scratch : List String
  deriving DecidableEq, Repr

/-- Modelled from the spec: one evaluation call threading the engine state
explicitly; per sections 3 and 5 the call neither reads nor writes it. -/
def evaluateCall (st : EngineState) (parse : String → Option ParsedSql)
    (sql : String) (schema : DbSchema) (ctx : BusinessContext) :
    ConfidenceResult × EngineState :=
  (evaluateEngine parse sql schema ctx, st)

/-- Modelled from the spec: the issue codes with a registered deterministic
rewrite (section 4.7). -/
def registeredFixCodes : List String := ["aggregate_in_where", "group_by_mismatch"]

/-- Modelled from the spec: move the aggregate predicate from WHERE into a
HAVING clause (section 4.7). -/
def fixAggregateInWhere (sql : String) : String :=
  match sql.splitOn " WHERE " with
  | [beforeW, cond] => beforeW ++ " HAVING " ++ cond
  | _ => sql

/-- Modelled from the spec: append the missing column to GROUP BY, creating
the clause when absent (section 4.7). -/
def fixGroupByMismatch (col : String) (sql : String) : String :=
  if 2 ≤ (sql.splitOn " GROUP BY ").length then sql ++ ", " ++ col
  else sql ++ " GROUP BY " ++ col

/-- Modelled from the spec: apply the registered rewrite of one issue, or
leave the SQL untouched for an unregistered code (section 4.7). -/
def applyFix (i : Issue) (sql : String) : String :=
  if i.code = "aggregate_in_where" then fixAggregateInWhere sql
  else if i.code = "group_by_mismatch" then fixGroupByMismatch (i.location.getD "") sql
  else sql

/-- Modelled from the spec: SelfCorrector.correct (section 4.7): one
correction pass, fixes applied only for registered issue codes, corrected_sql
absent when zero fixes apply, and no internal re-scoring (the definition
never invokes the scorer). -/
def correct (sql : String) (issues : List Issue) : CorrectionResult :=
  let fixable := issues.filter (fun i => registeredFixCodes.contains i.code)
  { corrected_sql :=
      if fixable.isEmpty then none
      else some (fixable.foldl (fun s i => applyFix i s) sql),
    applied_fixes := fixable.map (fun i => i.code),
    attempts := 1 }

/-!
Frontend embeddings, from the JavaScript sources of src/frontend and the
QueryInput component. Nullable JavaScript values are Option, JavaScript
string falsiness (empty string) is modelled explicitly, and numbers are
rationals.
-/

/-- Whitespace as trimmed by the JavaScript String.prototype.trim used in
QueryInput.handleSubmit. -/
def isJsWhitespaceChar (c : Char) : Bool :=
  c = ' ' || c = '\t' || c = '\n' || c = '\r' || c = '\u000B' || c = '\u000C' || c = ' '

/-- JavaScript String.prototype.trim: drop leading and trailing whitespace. -/
def jsTrim (s : String) : String :=
  ⟨((s.toList.dropWhile isJsWhitespaceChar).reverse.dropWhile isJsWhitespaceChar).reverse⟩

/-- The component state of QueryInput: the controlled input text and the
current validation error message. -/
structure QueryInputState where
  inputText : String
  validationError : String
  deriving DecidableEq, Repr

/-- QueryInput.handleSubmit: trim the input; when the trimmed text is empty
set the validation error and do not call onSubmit (second component none),
otherwise call onSubmit with exactly the trimmed text. -/
def handleSubmit (st : QueryInputState) : QueryInputState × Option String :=
  if jsTrim st.inputText = "" then
    ({ st with validationError := "Please enter a query" }, none)
  else (st, some (jsTrim st.inputText))

/-- JavaScript truthiness of a nullable string: null, undefined and the
empty string are falsy. -/
def strTruthy : Option String → Bool
  | none => false
  | some s => !s.isEmpty

/-- The JavaScript expression x or-else dflt over nullable strings, where the
empty string falls through to the default. -/
def jsOrStr (x : Option String) (dflt : String) : String :=
  match x with
  | some s => if s.isEmpty then dflt else s
  | none => dflt

/-- responseMapper.mapStatus: the four known statuses map to themselves and
everything else (including an absent status) maps to the string error. -/
def mapStatus (backendStatus : Option String) : String :=
  if backendStatus = some "clarification_required" then "clarification_required"
  else if backendStatus = some "success" then "success"
  else if backendStatus = some "rejected" then "rejected"
  else if backendStatus = some "error" then "error"
  else "error"

/-- An uninterpreted stand-in for one JSON data row; the response mapper
passes rows through without inspecting them. -/
structure DataRow where
  raw : String
  deriving DecidableEq, Repr

/-- The chart_suggestion object shape used by normalizeSuccess. -/
structure ChartSuggestion where
  chartType : String
  x : Option String
  y : Option String
  deriving DecidableEq, Repr

/-- The nested error object of a backend response. -/
structure BackendError where
  code : Option String
  message : Option String
  deriving DecidableEq, Repr

/-- The nested verification object of a backend response. -/
structure BackendVerification where
  status : Option String
  message : Option String
  deriving DecidableEq, Repr

/-- The nested explainability object of a backend response. -/
structure BackendExplainability where
  tables : Option (List String)
  columns : Option (List String)
  joins : Option (List String)
  filters : Option (List String)
  business_rules_used : Option (List String)
  deriving DecidableEq, Repr

/-- The backend confidence field is dynamically either a bare number or an
object with optional score, label and reasons. -/
inductive BackendConfidence where
  | num (score : ℚ)
  | obj (score : Option ℚ) (label : Option String) (reasons : Option (List String))
  deriving DecidableEq, Repr

/-- The backend response shape, covering every field the response mapper
reads. Absent or null JavaScript fields are none. -/
structure BackendResponse where
  status : Option String
  sessionId : Option String
  clarification_question : Option String
  question : Option String
  options : Option (List String)
  sql : Option String
  sql_query : Option String
  data : Option (List DataRow)
  result : Option (List DataRow)
  chart_suggestion : Option ChartSuggestion
  explainability : Option BackendExplainability
  verification : Option BackendVerification
  confidence : Option BackendConfidence
  sql_confidence : Option ℚ
  recommendation : Option String
  error : Option BackendError
  message : Option String
  deriving DecidableEq, Repr

/-- One entry of the questions array built by normalizeClarification. -/
structure ClarQuestion where
  id : String
  text : String
  qtype : String
  options : Option (List String)
  required : Bool
  deriving DecidableEq, Repr

/-- The normalized clarification shape. -/
structure NormalizedClarification where
  status : String
  sessionId : Option String
  question : String
  options : List String
  questions : List ClarQuestion
  deriving DecidableEq, Repr

/-- The normalized verification subobject. -/
structure NormalizedVerification where
  status : String
  message : String
  deriving DecidableEq, Repr

/-- The value that flows into the normalized confidence score field: a
number, the confidence object itself (when the nullish chain falls back to a
non-null object without a score), or null. -/
inductive ScoreVal where
  | num (q : ℚ)
  | objVal
  | nullVal
  deriving DecidableEq, Repr

/-- The normalized confidence subobject. -/
structure NormalizedConfidence where
  score : ScoreVal
  label : String
  reasons : List String
  deriving DecidableEq, Repr

/-- The normalized explainability subobject. -/
structure NormalizedExplainability where
  tables : List String
  columns : List String
  joins : List String
  filters : List String
  businessRulesUsed : List String
  deriving DecidableEq, Repr

/-- The normalized success shape. -/
structure NormalizedSuccess where
  status : String
  sessionId : Option String
  sql : String
  data : List DataRow
  chartSuggestion : ChartSuggestion
  explainability : NormalizedExplainability
  verification : NormalizedVerification
  confidence : NormalizedConfidence
  deriving DecidableEq, Repr

/-- The normalized error shape. -/
structure NormalizedError where
  status : String
  sessionId : Option String
  verification : NormalizedVerification
  errorCode : String
  errorMessage : String
  deriving DecidableEq, Repr

/-- responseMapper.getConfidenceLabel: null or undefined yields unknown,
then the 0.8 and 0.5 cutoffs. -/
def getConfidenceLabel (score : Option ℚ) : String :=
  match score with
  | none => "unknown"
  | some s => if 8 / 10 ≤ s then "high" else if 1 / 2 ≤ s then "medium" else "low"

/-- responseMapper.normalizeClarification. -/
def normalizeClarification (r : BackendResponse) : NormalizedClarification :=
  { status := mapStatus r.status,
    sessionId := r.sessionId,
    question := jsOrStr r.clarification_question (jsOrStr r.question ""),
    options := r.options.getD [],
    questions :=
      if strTruthy r.clarification_question then
        [{ id := "clarification_1",
           text := r.clarification_question.getD "",
           qtype :=
             (match r.options with
              | some os => if 0 < os.length then "select" else "text"
              | none => "text"),
           options := r.options,
           required := true }]
      else [] }

/-- The nullish chain confidence.score, then confidence itself, then
sql_confidence, then null, from normalizeSuccess. -/
def confScoreField (r : BackendResponse) : ScoreVal :=
  match r.confidence with
  | some (.obj (some q) _ _) => .num q
  | some (.obj none _ _) => .objVal
  | some (.num q) => .num q
  | none =>
    match r.sql_confidence with
    | some q => .num q
    | none => .nullVal

/-- The label expression of normalizeSuccess: the object label when truthy,
else getConfidenceLabel of confidence.score nullish sql_confidence. -/
def confLabelField (r : BackendResponse) : String :=
  jsOrStr
    (match r.confidence with
     | some (.obj _ lab _) => lab
     | _ => none)
    (getConfidenceLabel
      (match r.confidence with
       | some (.obj (some q) _ _) => some q
       | _ => r.sql_confidence))

/-- The reasons expression of normalizeSuccess: the object reasons when
present, else a single recommendation line when recommendation is truthy. -/
def confReasonsField (r : BackendResponse) : List String :=
  match (match r.confidence with
         | some (.obj _ _ rs) => rs
         | _ => none) with
  | some rs => rs
  | none =>
    if strTruthy r.recommendation then
      ["Recommendation: " ++ r.recommendation.getD ""]
    else []

/-- responseMapper.normalizeSuccess. -/
def normalizeSuccess (r : BackendResponse) : NormalizedSuccess :=
  { status := mapStatus r.status,
    sessionId := r.sessionId,
    sql := jsOrStr r.sql (jsOrStr r.sql_query ""),
    data :=
      (match r.data with
       | some d => d
       | none => r.result.getD []),
    chartSuggestion := r.chart_suggestion.getD { chartType := "bar", x := none, y := none },
    explainability :=
      { tables := (r.explainability.bind (fun e => e.tables)).getD [],
        columns := (r.explainability.bind (fun e => e.columns)).getD [],
        joins := (r.explainability.bind (fun e => e.joins)).getD [],
        filters := (r.explainability.bind (fun e => e.filters)).getD [],
        businessRulesUsed := (r.explainability.bind (fun e => e.business_rules_used)).getD [] },
    verification :=
      { status := jsOrStr (r.verification.bind (fun v => v.status)) "unknown",
        message := jsOrStr (r.verification.bind (fun v => v.message)) "" },
    confidence :=
      { score := confScoreField r,
        label := confLabelField r,
        reasons := confReasonsField r } }

/-- responseMapper.normalizeError. -/
def normalizeError (r : BackendResponse) : NormalizedError :=
  { status := mapStatus r.status,
    sessionId := r.sessionId,
    verification :=
      { status := jsOrStr (r.verification.bind (fun v => v.status)) "rejected",
        message := jsOrStr (r.verification.bind (fun v => v.message)) "" },
    errorCode := jsOrStr (r.error.bind (fun e => e.code)) "UNKNOWN_ERROR",
    errorMessage :=
      jsOrStr (r.error.bind (fun e => e.message))
        (jsOrStr r.message "An unknown error occurred") }

/-- The three shapes a normalized response can take. -/
inductive NormalizedResponse where
  | clar (c : NormalizedClarification)
  | succ (s : NormalizedSuccess)
  | err (e : NormalizedError)
  deriving DecidableEq, Repr

/-- JavaScript string interpolation of a possibly-undefined status. -/
def statusTextOfOpt : Option String → String
  | some s => s
  | none => "undefined"

/-- responseMapper.normalizeResponse: dispatch on the backend status, and for
an unknown status re-enter normalizeError on a copy of the response with
status error and an UNKNOWN_STATUS error object. -/
def normalizeResponse (r : BackendResponse) : NormalizedResponse :=
  if r.status = some "clarification_required" then .clar (normalizeClarification r)
  else if r.status = some "success" then .succ (normalizeSuccess r)
  else if r.status = some "rejected" ∨ r.status = some "error" then .err (normalizeError r)
  else
    .err (normalizeError
      { r with status := some "error",
               error := some { code := some "UNKNOWN_STATUS",
                               message := some ("Unknown response status: " ++ statusTextOfOpt r.status) } })

/-- The status field of a normalized response, whichever shape it has. -/
def statusOfNormalized : NormalizedResponse → String
  | .clar c => c.status
  | .succ s => s.status
  | .err e => e.status

/-- The error code of a normalized response when it is error-shaped. -/
def errorCodeOfNormalized : NormalizedResponse → Option String
  | .err e => some e.errorCode
  | _ => none

/-!
Shared lemmas about the engine model.
-/

lemma clamp01_nonneg (q : ℚ) : 0 ≤ clamp01 q := le_max_left 0 _

lemma clamp01_le_one (q : ℚ) : clamp01 q ≤ 1 := max_le zero_le_one (min_le_left 1 q)

lemma contextRawScore_nonneg (t : ParsedSql) (ctx : BusinessContext) :
    0 ≤ contextRawScore t ctx := by
  unfold contextRawScore
  split_ifs
  · norm_num
  · positivity

lemma contextRawScore_le_one (t : ParsedSql) (ctx : BusinessContext) :
    contextRawScore t ctx ≤ 1 := by
  unfold contextRawScore
  split_ifs with h
  · norm_num
  · have hne : ctx ≠ [] := by intro he; subst he; simp at h
    rw [div_le_one (by exact_mod_cast List.length_pos.mpr hne)]
    exact_mod_cast List.length_filter_le _ _

lemma evaluateEngine_overall_bounds (parse : String → Option ParsedSql) (sql : String)
    (schema : DbSchema) (ctx : BusinessContext) :
    0 ≤ (evaluateEngine parse sql schema ctx).overall_confidence ∧
    (evaluateEngine parse sql schema ctx).overall_confidence ≤ 1 := by
  cases h : parse sql with
  | none =>
    constructor <;>
      norm_num [evaluateEngine, h, blockedResult, mkResult, aggregate, blockedDim, mkDim, weightOf]
  | some t =>
    have hsy1 : 0 ≤ syntaxRawScore t := clamp01_nonneg _
    have hsy2 : syntaxRawScore t ≤ 1 := clamp01_le_one _
    have hsc1 : 0 ≤ schemaRawScore t schema := clamp01_nonneg _
    have hsc2 : schemaRawScore t schema ≤ 1 := clamp01_le_one _
    have hse1 : 0 ≤ semanticRawScore t := clamp01_nonneg _
    have hse2 : semanticRawScore t ≤ 1 := clamp01_le_one _
    have hco1 : 0 ≤ contextRawScore t ctx := contextRawScore_nonneg t ctx
    have hco2 : contextRawScore t ctx ≤ 1 := contextRawScore_le_one t ctx
    have hbu1 : 0 ≤ businessRawScore t schema := clamp01_nonneg _
    have hbu2 : businessRawScore t schema ≤ 1 := clamp01_le_one _
    simp only [evaluateEngine, h, mkResult, aggregate, syntaxDimScore, schemaDimScore,
      semanticDimScore, contextDimScore, businessDimScore, mkDim, weightOf,
      List.map_cons, List.map_nil, List.sum_cons, List.sum_nil]
    constructor <;> linarith

lemma evaluateEngine_dims_length (parse : String → Option ParsedSql) (sql : String)
    (schema : DbSchema) (ctx : BusinessContext) :
    (evaluateEngine parse sql schema ctx).dimension_scores.length = 5 := by
  cases h : parse sql <;> simp [evaluateEngine, h, blockedResult, mkResult]

lemma evaluateEngine_rec_def (parse : String → Option ParsedSql) (sql : String)
    (schema : DbSchema) (ctx : BusinessContext) :
    (evaluateEngine parse sql schema ctx).recommendation =
      recommend (evaluateEngine parse sql schema ctx).overall_confidence := by
  cases h : parse sql <;> simp [evaluateEngine, h, mkResult, blockedResult]

/-!
Claim theorems.
-/

/-- C1: for every confidence score s in the unit interval the recommendation
follows the three-band rule: s at least 0.7 yields ACCEPT, s in the interval
from 0.5 inclusive to 0.7 exclusive yields CORRECT, and s below 0.5 yields
REJECT; the three iff characterizations make exactly one band apply to any
score, including the boundary values 0.5 and 0.7. -/
theorem recommend_three_band_rule (s : ℚ) (h0 : 0 ≤ s) (h1 : s ≤ 1) :
    (recommend s = Recommendation.ACCEPT ↔ 7 / 10 ≤ s) ∧
    (recommend s = Recommendation.CORRECT ↔ 1 / 2 ≤ s ∧ s < 7 / 10) ∧
    (recommend s = Recommendation.REJECT ↔ s < 1 / 2) := by
  unfold recommend
  split_ifs with hA hC
  · exact ⟨⟨fun _ => hA, fun _ => rfl⟩,
      ⟨fun h => absurd h (by decide), fun h => absurd hA (not_le.mpr h.2)⟩,
      ⟨fun h => absurd h (by decide),
       fun h => absurd (lt_of_le_of_lt hA h) (by norm_num)⟩⟩
  · exact ⟨⟨fun h => absurd h (by decide), fun h => absurd h hA⟩,
      ⟨fun _ => ⟨hC, not_le.mp hA⟩, fun _ => rfl⟩,
      ⟨fun h => absurd h (by decide), fun h => absurd hC (not_le.mpr h)⟩⟩
  · exact ⟨⟨fun h => absurd h (by decide), fun h => absurd h hA⟩,
      ⟨fun h => absurd h (by decide), fun h => absurd h.1 hC⟩,
      ⟨fun _ => not_le.mp hC, fun _ => rfl⟩⟩

/-- Witness for C1 at the concrete boundary-adjacent score 0.6. -/
theorem recommend_three_band_rule_witness :
    recommend (6 / 10 : ℚ) = Recommendation.CORRECT := by
  have h := recommend_three_band_rule (6 / 10) (by norm_num) (by norm_num)
  exact h.2.1.mpr (by norm_num)

/-- C2: for every input, the overall confidence is the weighted sum of the
five dimension raw scores with the fixed weights schema 0.30, syntax 0.25,
semantic 0.20, context 0.15, business 0.10, which sum to 1, so the result
lies in the unit interval. -/
theorem evaluate_weighted_aggregation (parse : String → Option ParsedSql)
    (sql : String) (schema : DbSchema) (ctx : BusinessContext) :
    (evaluateEngine parse sql schema ctx).overall_confidence =
      aggregate (evaluateEngine parse sql schema ctx).dimension_scores ∧
    ((evaluateEngine parse sql schema ctx).dimension_scores.map
        (fun d => (d.dimension, d.weight))) =
      [(Dimension.syntaxDim, 25 / 100), (Dimension.schemaDim, 30 / 100),
       (Dimension.semanticDim, 20 / 100), (Dimension.contextDim, 15 / 100),
       (Dimension.businessDim, 10 / 100)] ∧
    weightOf .schemaDim + weightOf .syntaxDim + weightOf .semanticDim +
      weightOf .contextDim + weightOf .businessDim = 1 ∧
    0 ≤ (evaluateEngine parse sql schema ctx).overall_confidence ∧
    (evaluateEngine parse sql schema ctx).overall_confidence ≤ 1 := by
  obtain ⟨hb1, hb2⟩ := evaluateEngine_overall_bounds parse sql schema ctx
  refine ⟨?_, ?_, by norm_num [weightOf], hb1, hb2⟩
  · cases h : parse sql <;> simp [evaluateEngine, h, blockedResult, mkResult]
  · cases h : parse sql with
    | none =>
      simp [evaluateEngine, h, blockedResult, mkResult, blockedDim, mkDim, weightOf]
    | some t =>
      simp [evaluateEngine, h, mkResult, mkDim, weightOf, syntaxDimScore,
        schemaDimScore, semanticDimScore, contextDimScore, businessDimScore]

/-- C3: for every SQL text that fails to parse, the result has exactly the
five dimension scores, the syntax dimension scored 0.0 with a single critical
syntax_error issue, the other four scored 0.0 with a single
blocked_by_syntax_error issue each, overall confidence 0.0, and
recommendation REJECT. -/
theorem evaluate_parse_failure_blocked (parse : String → Option ParsedSql)
    (sql : String) (schema : DbSchema) (ctx : BusinessContext)
    (h : parse sql = none) :
    ((evaluateEngine parse sql schema ctx).dimension_scores.map
        (fun d => (d.dimension, d.raw_score,
          d.contributing_issues.map (fun i => (i.code, i.severity))))) =
      [(Dimension.syntaxDim, (0 : ℚ), [("syntax_error", Severity.critical)]),
       (Dimension.schemaDim, 0, [("blocked_by_syntax_error", Severity.critical)]),
       (Dimension.semanticDim, 0, [("blocked_by_syntax_error", Severity.critical)]),
       (Dimension.contextDim, 0, [("blocked_by_syntax_error", Severity.critical)]),
       (Dimension.businessDim, 0, [("blocked_by_syntax_error", Severity.critical)])] ∧
    (evaluateEngine parse sql schema ctx).overall_confidence = 0 ∧
    (evaluateEngine parse sql schema ctx).recommendation = Recommendation.REJECT := by
  refine ⟨?_, ?_, ?_⟩
  · simp [evaluateEngine, h, blockedResult, mkResult, blockedDim, mkDim,
      blockedIssue, syntaxErrorIssue]
  · norm_num [evaluateEngine, h, blockedResult, mkResult, aggregate, blockedDim,
      mkDim, weightOf]
  · norm_num [evaluateEngine, h, blockedResult, mkResult, aggregate, blockedDim,
      mkDim, weightOf, recommend]

/-- Witness for C3: a parser that rejects everything, applied to a concrete
unparsable text. -/
theorem evaluate_parse_failure_blocked_witness :
    (evaluateEngine (fun _ => none) "SELECT FROM WHERE" [] []).overall_confidence = 0 ∧
    (evaluateEngine (fun _ => none) "SELECT FROM WHERE" [] []).recommendation =
      Recommendation.REJECT := by
  have h := evaluate_parse_failure_blocked (fun _ => none) "SELECT FROM WHERE" [] [] rfl
  exact ⟨h.2.1, h.2.2⟩

/-- C4: evaluation is total: every supplied (sql, schema, context) triple,
including empty or unparsable SQL, yields a well-formed ConfidenceResult
(five dimension scores, overall confidence in the unit interval, the
recommendation derived from it), and only a missing Schema argument, as
opposed to an empty one, is reported as a caller error. -/
theorem evaluate_total_wellformed (parse : String → Option ParsedSql)
    (sql : String) (schema : DbSchema) (ctx : BusinessContext) :
    evaluateChecked parse sql (some schema) ctx =
      Except.ok (evaluateEngine parse sql schema ctx) ∧
    (evaluateEngine parse sql schema ctx).dimension_scores.length = 5 ∧
    0 ≤ (evaluateEngine parse sql schema ctx).overall_confidence ∧
    (evaluateEngine parse sql schema ctx).overall_confidence ≤ 1 ∧
    (evaluateEngine parse sql schema ctx).recommendation =
      recommend (evaluateEngine parse sql schema ctx).overall_confidence ∧
    (∀ ctx2 : BusinessContext,
      evaluateChecked parse sql none ctx2 =
        Except.error "missing required Schema argument") := by
  obtain ⟨hb1, hb2⟩ := evaluateEngine_overall_bounds parse sql schema ctx
  exact ⟨rfl, evaluateEngine_dims_length parse sql schema ctx, hb1, hb2,
    evaluateEngine_rec_def parse sql schema ctx, fun _ => rfl⟩

/-- C5: every call to SelfCorrector.correct makes exactly one pass: the
attempts count is always 1, the applied fixes are exactly the registered
codes found among the issues (so fixes are applied only for registered issue
codes), and corrected_sql is absent precisely when zero registered fixes
apply. The definition of correct never invokes the scorer, so no internal
re-scoring happens. -/
theorem correct_single_pass (sql : String) (issues : List Issue) :
    (correct sql issues).attempts = 1 ∧
    (correct sql issues).applied_fixes =
      ((issues.filter (fun i => registeredFixCodes.contains i.code)).map
        (fun i => i.code)) ∧
    (∀ c ∈ (correct sql issues).applied_fixes, c ∈ registeredFixCodes) ∧
    ((correct sql issues).corrected_sql = none ↔
      (correct sql issues).applied_fixes = []) := by
  refine ⟨rfl, rfl, ?_, ?_⟩
  · intro c hc
    simp only [correct, List.mem_map, List.mem_filter] at hc
    obtain ⟨i, ⟨_, hi⟩, rfl⟩ := hc
    exact List.mem_of_elem_eq_true hi
  · simp only [correct]
    split_ifs with h
    · rw [List.isEmpty_iff.mp h, List.map_nil]
      exact iff_of_true rfl rfl
    · have hne : issues.filter (fun i => registeredFixCodes.contains i.code) ≠ [] := by
        intro he
        rw [he] at h
        exact h rfl
      refine iff_of_false id ?_
      intro hm
      exact hne (List.map_eq_nil_iff.mp hm)

/-- Witness for C5 at a concrete aggregate_in_where issue. -/
theorem correct_single_pass_witness :
    (correct "SELECT r FROM s WHERE SUM(x) > 1"
      [{ dimension := .semanticDim, severity := .critical, code := "aggregate_in_where",
         message := "aggregate function used in WHERE clause", location := some "SUM" }]).attempts = 1 ∧
    ("aggregate_in_where" : String) ∈ registeredFixCodes := by
  have h := correct_single_pass "SELECT r FROM s WHERE SUM(x) > 1"
    [{ dimension := .semanticDim, severity := .critical, code := "aggregate_in_where",
       message := "aggregate function used in WHERE clause", location := some "SUM" }]
  refine ⟨h.1, h.2.2.1 "aggregate_in_where" ?_⟩
  rw [h.2.1]
  decide

/-- C6: evaluation is deterministic and side-effect-free: the engine state is
returned unchanged by every call, the result does not depend on the engine
state, and two successive calls on the same inputs yield identical
ConfidenceResults. -/
theorem evaluate_deterministic_stateless (parse : String → Option ParsedSql)
    (sql : String) (schema : DbSchema) (ctx : BusinessContext) (st : EngineState) :
    (evaluateCall st parse sql schema ctx).2 = st ∧
    (evaluateCall ((evaluateCall st parse sql schema ctx).2) parse sql schema ctx).1 =
      (evaluateCall st parse sql schema ctx).1 ∧
    (∀ st2 : EngineState,
      (evaluateCall st2 parse sql schema ctx).1 = (evaluateCall st parse sql schema ctx).1) :=
  ⟨rfl, rfl, fun _ => rfl⟩

/-- C7: the ContextValidator scores a parsed query against an empty
BusinessContext as exactly 1.0 with no issues, and against a nonempty one as
the fraction of context statements with at least one matching term, so an
empty context never lowers the context dimension below 1.0. -/
theorem contextValidator_empty_default (t : ParsedSql) (ctx : BusinessContext) :
    ((contextDimScore t []).raw_score = 1 ∧
     (contextDimScore t []).contributing_issues = []) ∧
    (ctx ≠ [] →
      (contextDimScore t ctx).raw_score =
        ((ctx.filter (statementMatches t)).length : ℚ) / (ctx.length : ℚ)) := by
  refine ⟨⟨?_, ?_⟩, ?_⟩
  · simp [contextDimScore, mkDim, contextRawScore]
  · simp [contextDimScore, mkDim, contextIssuesOf]
  · intro h
    cases ctx with
    | nil => cases h rfl
    | cons a l => simp [contextDimScore, mkDim, contextRawScore]

/-- Witness for C7 at a concrete parse tree and a one-statement context. -/
theorem contextValidator_empty_default_witness :
    (contextDimScore
        ⟨["sales"], [(none, "net_revenue")], [], ["net_revenue"], [], [], [], [],
          false, false, [], []⟩
        ["Revenue = net_revenue column"]).raw_score =
      (((["Revenue = net_revenue column"].filter
          (statementMatches
            ⟨["sales"], [(none, "net_revenue")], [], ["net_revenue"], [], [], [], [],
              false, false, [], []⟩)).length : ℚ) /
        ((["Revenue = net_revenue column"] : List String).length : ℚ)) := by
  exact (contextValidator_empty_default
    ⟨["sales"], [(none, "net_revenue")], [], ["net_revenue"], [], [], [], [],
      false, false, [], []⟩
    ["Revenue = net_revenue column"]).2 (by simp)

/-- C8: the QueryInput submit handler never passes an empty or
whitespace-only query to onSubmit: when the trimmed input is empty it sets
the validation error and does not submit, and otherwise onSubmit receives
exactly the trimmed string. -/
theorem handleSubmit_guard (st : QueryInputState) :
    (jsTrim st.inputText = "" →
      (handleSubmit st).2 = none ∧
      (handleSubmit st).1.validationError = "Please enter a query") ∧
    (jsTrim st.inputText ≠ "" →
      (handleSubmit st).2 = some (jsTrim st.inputText) ∧
      (handleSubmit st).1 = st) := by
  constructor <;> intro h <;> simp [handleSubmit, h]

/-- Witness for C8 on a padded query and a whitespace-only one. -/
theorem handleSubmit_guard_witness :
    (handleSubmit { inputText := "  show revenue  ", validationError := "" }).2 =
      some "show revenue" ∧
    (handleSubmit { inputText := "   ", validationError := "" }).2 = none := by
  have h1 := (handleSubmit_guard { inputText := "  show revenue  ", validationError := "" }).2
    (by decide)
  have h2 := (handleSubmit_guard { inputText := "   ", validationError := "" }).1
    (by decide)
  refine ⟨?_, h2.1⟩
  rw [h1.1]
  decide

/-- C9: normalizeResponse is total over non-null responses: the status of the
normalized result is always one of the four strings clarification_required,
success, rejected, error, and any unrecognized backend status yields an
error-shaped result whose error code is UNKNOWN_STATUS. -/
theorem normalizeResponse_status_total (r : BackendResponse) :
    (statusOfNormalized (normalizeResponse r) = "clarification_required" ∨
     statusOfNormalized (normalizeResponse r) = "success" ∨
     statusOfNormalized (normalizeResponse r) = "rejected" ∨
     statusOfNormalized (normalizeResponse r) = "error") ∧
    (r.status ≠ some "clarification_required" →
     r.status ≠ some "success" →
     r.status ≠ some "rejected" →
     r.status ≠ some "error" →
      statusOfNormalized (normalizeResponse r) = "error" ∧
      errorCodeOfNormalized (normalizeResponse r) = some "UNKNOWN_STATUS") := by
  unfold normalizeResponse
  split_ifs with h1 h2 h3
  · constructor
    · left
      simp [statusOfNormalized, normalizeClarification, mapStatus, h1]
    · intro hn _ _ _
      exact absurd h1 hn
  · constructor
    · right; left
      simp [statusOfNormalized, normalizeSuccess, mapStatus, h2]
    · intro _ hn _ _
      exact absurd h2 hn
  · constructor
    · rcases h3 with h | h
      · right; right; left
        simp [statusOfNormalized, normalizeError, mapStatus, h, h1, h2]
      · right; right; right
        simp [statusOfNormalized, normalizeError, mapStatus, h, h1, h2]
    · intro _ _ hn hn2
      rcases h3 with h | h
      · exact absurd h hn
      · exact absurd h hn2
  · constructor
    · right; right; right
      simp [statusOfNormalized, normalizeError, mapStatus]
    · intro _ _ _ _
      constructor
      · simp [statusOfNormalized, normalizeError, mapStatus]
      · simp [errorCodeOfNormalized, normalizeError, jsOrStr]
        decide

/-- Witness for C9 on a response carrying an unrecognized status. -/
theorem normalizeResponse_status_total_witness :
    statusOfNormalized (normalizeResponse
      (⟨some "weird", none, none, none, none, none, none, none, none, none, none,
        none, none, none, none, none, none⟩ : BackendResponse)) = "error" ∧
    errorCodeOfNormalized (normalizeResponse
      (⟨some "weird", none, none, none, none, none, none, none, none, none, none,
        none, none, none, none, none, none⟩ : BackendResponse)) = some "UNKNOWN_STATUS" := by
  exact (normalizeResponse_status_total
    (⟨some "weird", none, none, none, none, none, none, none, none, none, none,
      none, none, none, none, none, none⟩ : BackendResponse)).2
    (by decide) (by decide) (by decide) (by decide)

/-- C10: getConfidenceLabel is total on optional scores: an absent score maps
to unknown, a score of at least 0.8 to high, a score in the interval from 0.5
inclusive to 0.8 exclusive to medium, and a score below 0.5 to low; in
particular 0.7 maps to medium, so the high/medium boundary is 0.8 rather
than the 0.7 ACCEPT threshold. -/
theorem getConfidenceLabel_bands :
    getConfidenceLabel none = "unknown" ∧
    (∀ q : ℚ, 8 / 10 ≤ q → getConfidenceLabel (some q) = "high") ∧
    (∀ q : ℚ, 1 / 2 ≤ q → q < 8 / 10 → getConfidenceLabel (some q) = "medium") ∧
    (∀ q : ℚ, q < 1 / 2 → getConfidenceLabel (some q) = "low") ∧
    getConfidenceLabel (some (7 / 10)) = "medium" := by
  refine ⟨rfl, ?_, ?_, ?_, ?_⟩
  · intro q h
    simp [getConfidenceLabel, h]
  · intro q h1 h2
    rw [getConfidenceLabel, if_neg (not_le.mpr h2), if_pos h1]
  · intro q h
    have hna : ¬(8 / 10 ≤ q) := by intro hc; linarith
    have hnc : ¬(1 / 2 ≤ q) := not_le.mpr h
    rw [getConfidenceLabel, if_neg hna, if_neg hnc]
  · norm_num [getConfidenceLabel]

/-- Witness for C10 at the concrete score 0.9. -/
theorem getConfidenceLabel_bands_witness :
    getConfidenceLabel (some (9 / 10)) = "high" := by
  exact getConfidenceLabel_bands.2.1 (9 / 10) (by norm_num)
